import Mathlib

/-!
Verification development for the Flask webhook service in app.py
(Vapi voice-agent webhook for Lifeline Restoration).

The Python source is shallowly embedded below.  Strings are Lean
strings; the Python dict objects that carry string fields are embedded
as association lists `List (String × String)`; the module-level
configuration (environment variables, the Twilio and Google clients)
is a record `Env`; every outbound network call (Google Sheets,
Albiware, Twilio, Google Calendar) is recorded as a `SinkCall` value
and its outcome is given by an oracle stored in `Env`.  The datetime
library is external to the program and is embedded as an abstract type
`DT` together with oracle functions (`fromiso`, `strftime...`); a
parse failure (Python ValueError) is `none`.  Print statements are not
modelled.  A handler receives `none` as its request body when
`request.json` raises (absent or unparsable body), which lands in the
except-branch of the handler.
-/

/-! ## Python string primitives, embedded structurally -/

/-- Python str.strip on a character list: drop whitespace at both ends. -/
def pyStripChars (l : List Char) : List Char :=
  ((l.dropWhile Char.isWhitespace).reverse.dropWhile Char.isWhitespace).reverse

/-- Python str.strip. -/
def pyStrip (s : String) : String := ⟨pyStripChars s.data⟩

/-- Helper for splitting on a single separator character. -/
def pySplitCharAux (c : Char) : List Char → List Char → List (List Char)
  | [], acc => [acc.reverse]
  | x :: xs, acc =>
    if x = c then acc.reverse :: pySplitCharAux c xs []
    else pySplitCharAux c xs (x :: acc)

/-- Python s.split(sep) for a one-character separator: keeps empty pieces,
    always returns at least one piece. -/
def pySplitChar (c : Char) (s : String) : List String :=
  (pySplitCharAux c s.data []).map String.mk

/-- Helper for whitespace splitting with an accumulator. -/
def pySplitWsChars : List Char → List Char → List (List Char)
  | [], acc => if acc.isEmpty then [] else [acc.reverse]
  | x :: xs, acc =>
    if x.isWhitespace then
      if acc.isEmpty then pySplitWsChars xs []
      else acc.reverse :: pySplitWsChars xs []
    else pySplitWsChars xs (x :: acc)

/-- Python s.split() with no arguments: split on whitespace runs,
    discarding empty tokens. -/
def pySplitWs (s : String) : List String :=
  (pySplitWsChars s.data []).map String.mk

/-- Python s.split(None, 1): strip leading whitespace, take the first
    whitespace-delimited token, and keep the rest (after the separating
    whitespace run) as a single final piece. -/
def pySplitNone1 (s : String) : List String :=
  let cs := s.data.dropWhile Char.isWhitespace
  if cs.isEmpty then []
  else
    let tok := cs.takeWhile (fun c => !c.isWhitespace)
    let rest := (cs.dropWhile (fun c => !c.isWhitespace)).dropWhile Char.isWhitespace
    if rest.isEmpty then [⟨tok⟩] else [⟨tok⟩, ⟨rest⟩]

/-- Python startswith. -/
def pyStartsWith (pre s : String) : Bool := pre.data.isPrefixOf s.data

/-- Python str.lower (ASCII case folding, which is all the source needs). -/
def pyLower (s : String) : String := ⟨s.data.map Char.toLower⟩

/-- Substring containment test, as in the Python expression "a in b". -/
def pyContainsChars (pat : List Char) : List Char → Bool
  | [] => pat.isEmpty
  | x :: xs => pat.isPrefixOf (x :: xs) || pyContainsChars pat xs

/-- Python "pat in s". -/
def pyContains (pat s : String) : Bool := pyContainsChars pat.data s.data

/-- Fuel-indexed helper for substring replacement (the fuel is the input
    length, which is always enough since a step consumes at least one
    character). -/
def pyReplaceFuel (pat rep : List Char) : Nat → List Char → List Char
  | 0, l => l
  | _ + 1, [] => []
  | n + 1, x :: xs =>
    if pat ≠ [] ∧ pat.isPrefixOf (x :: xs) then
      rep ++ pyReplaceFuel pat rep n (xs.drop (pat.length - 1))
    else x :: pyReplaceFuel pat rep n xs

/-- Python s.replace(pat, rep) for a non-empty pattern. -/
def pyReplace (pat rep s : String) : String :=
  ⟨pyReplaceFuel pat.data rep.data s.data.length s.data⟩

/-- Python "a or b" on strings: the empty string is falsy. -/
def pyOr (a b : String) : String := if a = "" then b else a

/-- Join a list of strings with single spaces, Python " ".join. -/
def joinSpace : List String → String
  | [] => ""
  | [s] => s
  | s :: rest => s ++ " " ++ joinSpace rest

/-! ## Python dict primitives (string-valued dicts as association lists) -/

/-- String-valued Python dict. -/
abbrev Dict := List (String × String)

/-- Python d.get(k, dflt). -/
def dictGet (d : Dict) (k dflt : String) : String := (d.lookup k).getD dflt

/-- Python d[k] = v on an association list keyed by strings. -/
def dictInsert {β : Type} (k : String) (v : β) (d : List (String × β)) :
    List (String × β) :=
  (k, v) :: d.filter (fun kv => kv.fst != k)

/-- Python del d[k]. -/
def dictDelete {β : Type} (k : String) (d : List (String × β)) :
    List (String × β) :=
  d.filter (fun kv => kv.fst != k)

theorem dictInsert_lookup {β : Type} (k : String) (v : β) (d : List (String × β)) :
    (dictInsert k v d).lookup k = some v := by
  simp [dictInsert, List.lookup]

theorem dictDelete_lookup {β : Type} (k : String) (d : List (String × β)) :
    (dictDelete k d).lookup k = none := by
  induction d with
  | nil => rfl
  | cons kv rest ih =>
    obtain ⟨a, b⟩ := kv
    by_cases h : a = k
    · simpa [dictDelete, List.filter_cons, h] using ih
    · have hb : (a != k) = true := by simpa [bne_iff_ne] using h
      have hk : (k == a) = false := by simpa using Ne.symm h
      simpa [dictDelete, List.filter_cons, hb, List.lookup, hk] using ih

/-! ## Embedded data model (app.py) -/

/-- Module constant STRUCTURED_OUTPUT_ID. -/
def STRUCTURED_OUTPUT_ID : String := "3da648d2-579b-4878-ace3-2c40f3fb3153"

/-- Module constant ALBIWARE_CONTACT_TYPE_ID. -/
def ALBIWARE_CONTACT_TYPE_ID : Nat := 27594

/-- Module constant ALBIWARE_REFERRAL_SOURCE_ID. -/
def ALBIWARE_REFERRAL_SOURCE_ID : Nat := 28704

/-- Module constant APPOINTMENT_DURATION_MINUTES. -/
def APPOINTMENT_DURATION_MINUTES : Nat := 120

/-- One value of appointment_storage: the dict stored by book_appointment. -/
structure StoredAppt where
  appointment_datetime : String
  appointment_datetime_formatted : String

/-- The module-level appointment_storage dict (keyed by call id). -/
abbrev Storage := List (String × StoredAppt)

/-- The sheet_data / lead_data dict built by the webhook handler (also the
    sms_data dict of book_appointment, which has the same keys). -/
structure SheetData where
  first_name : String
  last_name : String
  phone_number : String
  address : String
  referral_source : String
  issue_summary : String
  urgency : String
  appointment_datetime : String

/-- Result dict of parse_address. -/
structure AddressParts where
  address1 : String
  city : String
  state : String
  zipCode : String

/-- Body of the Albiware Contacts/Create request built by
    create_albiware_contact. -/
structure AlbiwareContact where
  FirstName : String
  LastName : String
  phoneNumber : String
  address1 : String
  city : String
  state : String
  zipCode : String
  contactTypeIds : List Nat
  referralSourceId : Nat
  latitude : Int
  longitude : Int

/-- The appointment_data / calendar_data dict handed to the calendar
    functions.  The webhook builds it without an email key, so email is an
    Option here; every other key is always set by the call sites. -/
structure CalendarData where
  customer_name : String
  phone : String
  address : String
  damage_type : String
  urgency : String
  email : Option String
  appointment_datetime : String

/-- Body of the Google Calendar events insert built by
    create_calendar_event.  The reminder block and the two timezone
    fields are constants in the source and are omitted here. -/
structure GoogleEvent where
  summary : String
  description : String
  location : String
  startDateTime : String
  endDateTime : String

/-- Body of the Albiware Schedule/CreateEvent request built by
    create_albiware_calendar_event.  The constant fields startTimezone,
    endTimezone, isAllDay, sendInvite, requiredAttendees and status are
    omitted (they carry no request-dependent information). -/
structure AlbiwareEvent where
  title : String
  startStr : String
  endStr : String
  notes : String
  address1 : String
  city : String
  state : String
  zipCode : String

/-- One available slot as produced by get_available_slots. -/
structure Slot where
  datetime : String
  display : String

/-- One outbound side effect: a network request to a sink. -/
inductive SinkCall where
  | sheetsPost (payload : SheetData)
  | albiwareContactPost (payload : AlbiwareContact)
  | technicianSms (recipient body : String)
  | customerSms (recipient body : String)
  | googleCalendarInsert (ev : GoogleEvent)
  | albiwareSchedulePost (ev : AlbiwareEvent)

/-- The module-level configuration and all external collaborators.
    DT is the abstract type of datetime values of the Python datetime
    library; parsing and formatting are oracles because the library is
    outside the program.  Each HTTP oracle returns the response status
    (none models a raised requests exception); twilioSendOk and
    googleInsertOk tell whether the corresponding client call succeeded
    (false models a raised exception, which the source catches). -/
structure Env (DT : Type) where
  appsScriptUrl : String
  albiwareApiKey : String
  twilioConfigured : Bool
  twilioPhone : String
  technicianPhones : List String
  calendarConfigured : Bool
  nowDisplay : String
  sheetsStatus : SheetData → Option Nat
  albiwareContactStatus : AlbiwareContact → Option Nat
  albiwareScheduleStatus : AlbiwareEvent → Option Nat
  twilioSendOk : String → String → Bool
  googleInsertOk : GoogleEvent → Bool
  calendarSlots : List Slot
  fromiso : String → Option DT
  toPacific : DT → DT
  addMinutes : DT → Nat → DT
  isoformat : DT → String
  strftimeAlbi : DT → String
  strftimeDisp : DT → String

/-! ## parse_address -/

/-- parse_address from app.py: split the address string on commas into
    street, city, state and zip components.  The initial dict carries the
    whole string as address1 and empty strings elsewhere; an empty input
    returns it unchanged. -/
def parse_address (address_string : String) : AddressParts :=
  if address_string = "" then
    { address1 := address_string, city := "", state := "", zipCode := "" }
  else
    let parts := (pySplitChar ',' address_string).map pyStrip
    if 3 ≤ parts.length then
      let state_zip := pySplitWs (pyStrip (parts.getD 2 ""))
      { address1 := parts.headD "", city := parts.getD 1 "",
        state := state_zip.headD "", zipCode := state_zip.getD 1 "" }
    else if parts.length = 2 then
      { address1 := parts.headD "", city := parts.getD 1 "",
        state := "", zipCode := "" }
    else
      { address1 := address_string, city := "", state := "", zipCode := "" }

/-- The "+1" prefixing that the source applies before Twilio calls (inline
    in send_customer_sms and in book_appointment): prepend "+1" unless the
    string already starts with "+".  No other cleaning is performed. -/
def normalizePhone (phone : String) : String :=
  if pyStartsWith "+" phone then phone else "+1" ++ phone

/-! ## Sink adapters -/

/-- send_customer_sms from app.py: confirmation SMS straight to the
    customer.  Returns the success flag and the attempted Twilio calls. -/
def send_customer_sms {DT : Type} (env : Env DT) (customer_data : SheetData) :
    Bool × List SinkCall :=
  if ¬ env.twilioConfigured ∨ env.twilioPhone = "" then (false, [])
  else if customer_data.phone_number = "" then (false, [])
  else
    let customer_phone := normalizePhone customer_data.phone_number
    let customer_name :=
      pyStrip (customer_data.first_name ++ " " ++ customer_data.last_name)
    let message_body :=
      "Hi " ++ customer_name ++
      "! Your Lifeline Restoration appointment is confirmed for " ++
      customer_data.appointment_datetime ++
      ". We'll see you then! Reply STOP to unsubscribe."
    (env.twilioSendOk customer_phone message_body,
     [SinkCall.customerSms customer_phone message_body])

/-- The technician SMS message body of send_sms_notification (the three
    f-string templates; nowDisplay stands for the strftime of
    get_pacific_time). -/
def smsBody (nowDisplay : String) (lead_data : SheetData)
    (message_type : String) : String :=
  let urgency := pyLower lead_data.urgency
  let emoji := if pyContains "emergency" urgency then "🚨" else "📋"
  let appointment_time := lead_data.appointment_datetime
  if message_type = "appointment" then
    "📅 APPOINTMENT BOOKED - Lifeline Restoration\n\nName: " ++
    lead_data.first_name ++ " " ++ lead_data.last_name ++
    "\nPhone: " ++ lead_data.phone_number ++
    "\nAddress: " ++ lead_data.address ++
    "\nIssue: " ++ lead_data.issue_summary ++
    "\n\nAppointment: " ++ appointment_time ++
    "\n\nCall: +17024219576\nBooked: " ++ nowDisplay
  else if appointment_time ≠ "" then
    emoji ++ " NEW LEAD + APPOINTMENT - Lifeline Restoration\n\nName: " ++
    lead_data.first_name ++ " " ++ lead_data.last_name ++
    "\nPhone: " ++ lead_data.phone_number ++
    "\nAddress: " ++ lead_data.address ++
    "\nIssue: " ++ lead_data.issue_summary ++
    "\nSource: " ++ lead_data.referral_source ++
    "\n\n📅 APPOINTMENT: " ++ appointment_time ++
    "\n\nCall: +17024219576\nReceived: " ++ nowDisplay
  else
    emoji ++ " NEW LEAD - Lifeline Restoration\n\nName: " ++
    lead_data.first_name ++ " " ++ lead_data.last_name ++
    "\nPhone: " ++ lead_data.phone_number ++
    "\nAddress: " ++ lead_data.address ++
    "\nIssue: " ++ lead_data.issue_summary ++
    "\nSource: " ++ lead_data.referral_source ++
    "\n\nCall: +17024219576\nReceived: " ++ nowDisplay

/-- The per-recipient loop of send_sms_notification: strip each number,
    skip empty ones, attempt a Twilio send for the rest, counting
    successes and recording the attempts in order. -/
def smsLoop {DT : Type} (env : Env DT) (message_body : String) :
    List String → Nat × List SinkCall
  | [] => (0, [])
  | p :: rest =>
    let q := pyStrip p
    if q = "" then smsLoop env message_body rest
    else
      let r := smsLoop env message_body rest
      ((if env.twilioSendOk q message_body then 1 else 0) + r.fst,
       SinkCall.technicianSms q message_body :: r.snd)

/-- send_sms_notification from app.py: notify every configured technician
    number and report success when at least one send went through.  The
    source reads TECHNICIAN_PHONES[0] in its guard; the list produced by
    str.split is never empty, which headD mirrors. -/
def send_sms_notification {DT : Type} (env : Env DT) (lead_data : SheetData)
    (message_type : String) : Bool × List SinkCall :=
  if ¬ env.twilioConfigured ∨ env.twilioPhone = "" ∨
      env.technicianPhones.headD "" = "" then (false, [])
  else
    let message_body := smsBody env.nowDisplay lead_data message_type
    let r := smsLoop env message_body env.technicianPhones
    (decide (0 < r.fst), r.snd)

/-- create_albiware_contact from app.py: map the lead and its parsed
    address to a Contacts/Create request; success means HTTP 200. -/
def create_albiware_contact {DT : Type} (env : Env DT) (lead_data : SheetData) :
    Bool × List SinkCall :=
  if env.albiwareApiKey = "" then (false, [])
  else
    let address_parts := parse_address lead_data.address
    let contact_data : AlbiwareContact :=
      { FirstName := lead_data.first_name, LastName := lead_data.last_name,
        phoneNumber := lead_data.phone_number,
        address1 := address_parts.address1, city := address_parts.city,
        state := address_parts.state, zipCode := address_parts.zipCode,
        contactTypeIds := [ALBIWARE_CONTACT_TYPE_ID],
        referralSourceId := ALBIWARE_REFERRAL_SOURCE_ID,
        latitude := 0, longitude := 0 }
    (env.albiwareContactStatus contact_data == some 200,
     [SinkCall.albiwareContactPost contact_data])

/-- The display formatting shared by the webhook and book_appointment:
    strftime as MM/DD/YYYY HH:MM, lowercased, with am and pm spelled
    a.m. and p.m. -/
def displayFormat {DT : Type} (env : Env DT) (dt : DT) : String :=
  pyReplace "pm" "p.m." (pyReplace "am" "a.m." (pyLower (env.strftimeDisp dt)))

/-- create_calendar_event from app.py: on a configured calendar service,
    parse the appointment instant (after replacing a Z suffix), convert to
    Pacific time, build the two-hour event and insert it.  A parse error
    or missing service returns None with no insert attempted; an insert
    failure is caught and also yields None. -/
def create_calendar_event {DT : Type} (env : Env DT) (appointment_data : CalendarData) :
    Bool × List SinkCall :=
  if ¬ env.calendarConfigured then (false, [])
  else
    match env.fromiso (pyReplace "Z" "+00:00" appointment_data.appointment_datetime) with
    | none => (false, [])
    | some dt =>
      let appointment_dt := env.toPacific dt
      let end_dt := env.addMinutes appointment_dt APPOINTMENT_DURATION_MINUTES
      let event : GoogleEvent :=
        { summary := "Initial Assessment - " ++ appointment_data.customer_name,
          description :=
            "Customer: " ++ appointment_data.customer_name ++
            "\nPhone: " ++ appointment_data.phone ++
            "\nAddress: " ++ appointment_data.address ++
            "\nIssue: " ++ appointment_data.damage_type ++ " - " ++
            appointment_data.urgency ++
            "\nEmail: " ++ appointment_data.email.getD "Not provided" ++
            "\n\nBooked via Vapi AI Assistant",
          location := appointment_data.address,
          startDateTime := env.isoformat appointment_dt,
          endDateTime := env.isoformat end_dt }
      (env.googleInsertOk event, [SinkCall.googleCalendarInsert event])

/-- create_albiware_calendar_event from app.py: with an API key, parse the
    appointment instant, convert to Pacific time, and post the two-hour
    scheduler event; success means HTTP 200, a parse error returns False
    with no request sent. -/
def create_albiware_calendar_event {DT : Type} (env : Env DT)
    (appointment_data : CalendarData) : Bool × List SinkCall :=
  if env.albiwareApiKey = "" then (false, [])
  else
    match env.fromiso (pyReplace "Z" "+00:00" appointment_data.appointment_datetime) with
    | none => (false, [])
    | some dt =>
      let appointment_dt := env.toPacific dt
      let end_dt := env.addMinutes appointment_dt APPOINTMENT_DURATION_MINUTES
      let address_parts := parse_address appointment_data.address
      let event_data : AlbiwareEvent :=
        { title := "Initial Assessment - " ++ appointment_data.customer_name,
          startStr := env.strftimeAlbi appointment_dt,
          endStr := env.strftimeAlbi end_dt,
          notes :=
            "Customer: " ++ appointment_data.customer_name ++
            "\nPhone: " ++ appointment_data.phone ++
            "\nIssue: " ++ appointment_data.damage_type ++ " - " ++
            appointment_data.urgency ++
            "\n\nBooked via Vapi AI Assistant",
          address1 := address_parts.address1, city := address_parts.city,
          state := address_parts.state, zipCode := address_parts.zipCode }
      (env.albiwareScheduleStatus event_data == some 200,
       [SinkCall.albiwareSchedulePost event_data])

/-- get_available_slots from app.py.  With no calendar service it returns
    the empty list; otherwise the slots depend on the wall clock and on
    the events in the external Google calendar, so the computed list
    (already capped at ten by the source) is an oracle of the
    environment. -/
def get_available_slots {DT : Type} (env : Env DT) : List Slot :=
  if env.calendarConfigured then env.calendarSlots else []

/-! ## Inbound payloads -/

/-- One entry of message.artifact.structuredOutputs: an object whose
    result key holds the lead dict. -/
structure StructuredOutput where
  result : Dict

/-- The end-of-call event body as read by the webhook handler, after the
    defaulting dict walks of the source: messageType is
    message.type (default "unknown"), structuredOutputs is
    message.artifact.structuredOutputs (missing maps collapse to the
    empty list), customerNumber is message.call.customer.number
    (default empty), callId is message.call.id (default empty), and
    transcript is the raw transcript carried in message.artifact, which
    the handler never reads. -/
structure EoCPayload where
  messageType : String
  structuredOutputs : List (String × StructuredOutput)
  customerNumber : String
  callId : String
  transcript : String

/-- The lead_data dict extracted by the webhook:
    structuredOutputs[STRUCTURED_OUTPUT_ID].result, defaulting to the
    empty dict. -/
def leadDataOf (data : EoCPayload) : Dict :=
  ((data.structuredOutputs.lookup STRUCTURED_OUTPUT_ID).getD ⟨[]⟩).result

/-- The stored appointment datetime for a call id:
    appointment_storage.get(call_id, empty).get(key, empty). -/
def stored_datetime_of (storage : Storage) (call_id : String) : String :=
  ((storage.lookup call_id).map (·.appointment_datetime)).getD ""

/-- The stored formatted appointment datetime for a call id. -/
def stored_formatted_of (storage : Storage) (call_id : String) : String :=
  ((storage.lookup call_id).map (·.appointment_datetime_formatted)).getD ""

/-- The raw appointment datetime the webhook works with: the stored value
    takes precedence over the structured output (Python or on strings). -/
def appointment_datetime_raw_of (storage : Storage) (call_id : String)
    (lead_data : Dict) : String :=
  pyOr (stored_datetime_of storage call_id)
    (dictGet lead_data "appointment_datetime" "")

/-- Response body of the webhook route. -/
inductive WebhookBody where
  | ignored (messageType : String)
  | noOutput
  | success (data : SheetData)
      (sheets albiware sms gcal acal : Bool)
  | internalError

/-- HTTP response of the webhook route: status code and JSON body. -/
structure WebhookResp where
  status : Nat
  body : WebhookBody

/-- The lead dict of the response body (empty dict for the other body
    shapes, used only to state properties). -/
def respData : WebhookBody → SheetData
  | .success d _ _ _ _ _ => d
  | _ => ⟨"", "", "", "", "", "", "", ""⟩

/-- The first and last name computation of the webhook handler: discrete
    fields win; when both are empty, a combined name (or customer_name)
    field is stripped and split on the first whitespace run. -/
def namesOf (lead_data : Dict) : String × String :=
  let first0 := dictGet lead_data "first_name" ""
  let last0 := dictGet lead_data "last_name" ""
  if first0 = "" ∧ last0 = "" then
    let full_name :=
      pyOr (dictGet lead_data "name" "") (dictGet lead_data "customer_name" "")
    if full_name ≠ "" then
      let name_parts := pySplitNone1 (pyStrip full_name)
      (name_parts.headD "", name_parts.getD 1 "")
    else (first0, last0)
  else (first0, last0)

/-! ## The webhook route -/

/-- webhook from app.py, the end-of-call orchestrator.  Returns the HTTP
    response, the outbound sink calls in program order, and the new
    appointment_storage.  A missing or unparsable request body raises in
    request.json and lands in the except-branch (HTTP 500); a
    non-end-of-call event is ignored with HTTP 200; an end-of-call event
    without structured output data is answered with HTTP 400 before any
    sink is contacted; otherwise the handler builds sheet_data, contacts
    Google Sheets (when configured), Albiware, the technician SMS list
    and, when an appointment datetime is present, the two calendars, and
    finally deletes the consumed appointment_storage entry. -/
def webhook {DT : Type} (env : Env DT) (storage : Storage)
    (reqBody : Option EoCPayload) : WebhookResp × List SinkCall × Storage :=
  match reqBody with
  | none => (⟨500, .internalError⟩, [], storage)
  | some data =>
    if data.messageType ≠ "end-of-call-report" then
      (⟨200, .ignored data.messageType⟩, [], storage)
    else
      let lead_data := leadDataOf data
      if lead_data = [] then (⟨400, .noOutput⟩, [], storage)
      else
        let customer_number := data.customerNumber
        let call_id := data.callId
        let appointment_datetime_raw :=
          appointment_datetime_raw_of storage call_id lead_data
        let fmt0 := stored_formatted_of storage call_id
        let appointment_datetime_formatted :=
          if appointment_datetime_raw ≠ "" ∧ fmt0 = "" then
            match env.fromiso (pyReplace "Z" "+00:00" appointment_datetime_raw) with
            | some appt_dt => displayFormat env appt_dt
            | none => appointment_datetime_raw
          else fmt0
        let names := namesOf lead_data
        let sheet_data : SheetData :=
          { first_name := names.fst, last_name := names.snd,
            phone_number := pyOr (dictGet lead_data "phone_number" "") customer_number,
            address := dictGet lead_data "property_address" "",
            referral_source := dictGet lead_data "referral_source" "",
            issue_summary :=
              pyOr (pyOr (dictGet lead_data "issue_summary" "")
                     (dictGet lead_data "issueSummary" ""))
                (dictGet lead_data "urgency" "standard" ++ " - " ++
                 dictGet lead_data "damage_type" "Not specified"),
            urgency := dictGet lead_data "urgency" "standard",
            appointment_datetime := appointment_datetime_formatted }
        let sheetsRes : Bool × List SinkCall :=
          if env.appsScriptUrl ≠ "" then
            (env.sheetsStatus sheet_data == some 200,
             [SinkCall.sheetsPost sheet_data])
          else (false, [])
        let albiwareRes := create_albiware_contact env sheet_data
        let smsRes := send_sms_notification env sheet_data "lead"
        let calRes : (Bool × Bool) × List SinkCall :=
          if appointment_datetime_raw ≠ "" then
            let calendar_data : CalendarData :=
              { customer_name := sheet_data.first_name ++ " " ++ sheet_data.last_name,
                phone := sheet_data.phone_number,
                address := sheet_data.address,
                damage_type := dictGet lead_data "damage_type" "Not specified",
                urgency := sheet_data.urgency,
                email := none,
                appointment_datetime := appointment_datetime_raw }
            let g := create_calendar_event env calendar_data
            let a := create_albiware_calendar_event env calendar_data
            ((g.fst, a.fst), g.snd ++ a.snd)
          else ((false, false), [])
        let storage2 :=
          if call_id ≠ "" ∧ (storage.lookup call_id).isSome then
            dictDelete call_id storage
          else storage
        (⟨200, .success sheet_data sheetsRes.fst albiwareRes.fst smsRes.fst
            calRes.fst.fst calRes.fst.snd⟩,
         sheetsRes.snd ++ albiwareRes.snd ++ smsRes.snd ++ calRes.snd,
         storage2)

/-! ## Mid-call tool endpoints -/

/-- One entry of message.toolCallList: the tool call id (absent ids
    default to "unknown" in the handlers) and function.arguments
    (missing objects collapse to the empty dict).  A JSON-string-encoded
    arguments value is modelled after decoding. -/
structure ToolCall where
  id : Option String
  arguments : Dict

/-- A mid-call tool request body.  functionCall is none when the
    functionCall object is missing or empty (both are falsy in the
    source); when present it carries the parameters dict. -/
structure ToolReq where
  toolCallList : List ToolCall
  functionCall : Option Dict
  callId : String

/-- Response body of a tool route: the Vapi results envelope, or the
    error object of the invalid-format branch. -/
inductive ToolBody where
  | results (toolCallId result : String)
  | invalidFormat

/-- HTTP response of a tool route. -/
structure ToolResp where
  status : Nat
  body : ToolBody

/-- The enumerated slot lines of the check_availability result text. -/
def slotLines : Nat → List Slot → String
  | _, [] => ""
  | i, s :: rest =>
    toString i ++ ". " ++ s.display ++ " (use datetime: " ++ s.datetime ++
    ")\n" ++ slotLines (i + 1) rest

/-- The tail of check_availability once the tool call id and arguments
    are extracted: fetch slots and format the spoken result. -/
def availabilityResult {DT : Type} (env : Env DT) (tool_call_id : String)
    (arguments : Dict) : ToolResp :=
  let _customer_address := dictGet arguments "customer_address" "Not provided"
  let available_slots := get_available_slots env
  let result_text :=
    if available_slots.isEmpty then
      "I apologize, but I'm having trouble accessing our calendar right now. Let me transfer you to someone who can help you schedule an appointment."
    else
      "Here are our next available appointment times:\n" ++
      slotLines 1 (available_slots.take 5) ++
      "\nWhen booking, use the EXACT datetime string shown in parentheses."
  ⟨200, .results tool_call_id result_text⟩

/-- check_availability from app.py.  The new toolCallList format wins;
    the old functionCall format is the fallback; with neither, the
    handler returns HTTP 400 with an error object.  Any internal
    exception (including an unparsable body) is caught and answered with
    HTTP 200 and an apology envelope. -/
def check_availability {DT : Type} (env : Env DT) (reqBody : Option ToolReq) :
    ToolResp :=
  match reqBody with
  | none =>
    ⟨200, .results "unknown"
      "I'm having trouble checking availability right now. Let me transfer you to our scheduling team."⟩
  | some data =>
    match data.toolCallList with
    | tool_call :: _ =>
      availabilityResult env (tool_call.id.getD "unknown") tool_call.arguments
    | [] =>
      match data.functionCall with
      | none => ⟨400, .invalidFormat⟩
      | some parameters => availabilityResult env "function-call" parameters

/-- The tail of book_appointment once the tool call id and arguments are
    extracted: compute the display time (falling back to the raw string
    on a parse error), split the customer name, prefix the phone, store
    the appointment under the call id, and send the customer SMS. -/
def bookAppointmentCore {DT : Type} (env : Env DT) (storage : Storage)
    (call_id : String) (tool_call_id : String) (function_args : Dict) :
    ToolResp × List SinkCall × Storage :=
  let appointment_datetime := dictGet function_args "appointment_datetime" ""
  let display_time :=
    if appointment_datetime ≠ "" then
      match env.fromiso (pyReplace "Z" "+00:00" appointment_datetime) with
      | some appt_dt => displayFormat env appt_dt
      | none => appointment_datetime
    else "your scheduled time"
  let customer_name := dictGet function_args "customer_name" ""
  let name_parts := pySplitWs customer_name
  let customer_phone := normalizePhone (dictGet function_args "phone" "")
  let urgency := dictGet function_args "urgency" "standard"
  let sms_data : SheetData :=
    { first_name := name_parts.headD "",
      last_name :=
        if 1 < name_parts.length then joinSpace (name_parts.drop 1) else "",
      phone_number := customer_phone,
      address := dictGet function_args "address" "",
      referral_source := "",
      issue_summary := dictGet function_args "damage_type" "" ++ " - " ++ urgency,
      urgency := urgency,
      appointment_datetime := display_time }
  let storage2 :=
    if call_id ≠ "" then
      dictInsert call_id
        ⟨appointment_datetime, display_time⟩ storage
    else storage
  let smsRes := send_customer_sms env sms_data
  (⟨200, .results tool_call_id
      "Confirmation sent! You'll receive a text message shortly with all the appointment details."⟩,
   smsRes.snd, storage2)

/-- book_appointment from app.py.  Same format dispatch as
    check_availability; the referral_source key is absent from sms_data
    in the source and is embedded as the empty string, which is what the
    dict get defaults of the consumers produce. -/
def book_appointment {DT : Type} (env : Env DT) (storage : Storage)
    (reqBody : Option ToolReq) : ToolResp × List SinkCall × Storage :=
  match reqBody with
  | none =>
    (⟨200, .results "unknown"
       "I'm having trouble booking that appointment. Let me transfer you to someone who can help."⟩,
     [], storage)
  | some data =>
    match data.toolCallList with
    | tool_call :: _ =>
      bookAppointmentCore env storage data.callId (tool_call.id.getD "unknown")
        tool_call.arguments
    | [] =>
      match data.functionCall with
      | none => (⟨400, .invalidFormat⟩, [], storage)
      | some parameters =>
        bookAppointmentCore env storage data.callId "function-call" parameters

/-- cancel_appointment from app.py: a placeholder hand-off answer, always
    HTTP 200. -/
def cancel_appointment (reqBody : Option ToolReq) : ToolResp :=
  match reqBody with
  | none =>
    ⟨200, .results "unknown"
      "I'm having trouble with that request. Let me transfer you to someone who can help."⟩
  | some data =>
    ⟨200, .results
      (match data.toolCallList with
       | tool_call :: _ => tool_call.id.getD "unknown"
       | [] => "unknown")
      "I understand you need to cancel your appointment. Let me transfer you to our scheduling team who can help you with that."⟩

/-- reschedule_appointment from app.py: a placeholder hand-off answer,
    always HTTP 200. -/
def reschedule_appointment (reqBody : Option ToolReq) : ToolResp :=
  match reqBody with
  | none =>
    ⟨200, .results "unknown"
      "I'm having trouble with that request. Let me transfer you to someone who can help."⟩
  | some data =>
    ⟨200, .results
      (match data.toolCallList with
       | tool_call :: _ => tool_call.id.getD "unknown"
       | [] => "unknown")
      "I understand you need to reschedule. Let me transfer you to our scheduling team who can help you find a new time."⟩

/-! ## A concrete environment and concrete requests for evaluation -/

/-- A fully configured concrete environment over the trivial datetime
    type: every sink answers 200 / success, every Twilio send succeeds,
    the calendar service is not initialized, and datetime parsing always
    fails (none), exercising the raw-string fallbacks. -/
def envW : Env Unit :=
  { appsScriptUrl := "https://script.example/exec",
    albiwareApiKey := "test-api-key",
    twilioConfigured := true,
    twilioPhone := "+17020000000",
    technicianPhones := ["+17025550001"],
    calendarConfigured := false,
    nowDisplay := "01:00 PM PT",
    sheetsStatus := fun _ => some 200,
    albiwareContactStatus := fun _ => some 200,
    albiwareScheduleStatus := fun _ => some 200,
    twilioSendOk := fun _ _ => true,
    googleInsertOk := fun _ => true,
    calendarSlots := [],
    fromiso := fun _ => none,
    toPacific := id,
    addMinutes := fun d _ => d,
    isoformat := fun _ => "",
    strftimeAlbi := fun _ => "",
    strftimeDisp := fun _ => "" }

/-- A complete end-of-call report with structured output data. -/
def p1 : EoCPayload :=
  { messageType := "end-of-call-report",
    structuredOutputs :=
      [(STRUCTURED_OUTPUT_ID,
        ⟨[("first_name", "Jane"), ("phone_number", "7025551234"),
          ("property_address", "123 Main St, Las Vegas, NV 89101"),
          ("urgency", "emergency")]⟩)],
    customerNumber := "+17025559999",
    callId := "call-1",
    transcript := "" }

/-- An end-of-call report with no structured output at all. -/
def p2 : EoCPayload :=
  { messageType := "end-of-call-report",
    structuredOutputs := [],
    customerNumber := "",
    callId := "call-2",
    transcript := "" }

/-! ## C4: phone normalization -/

/-- C4 counterexample: the source does not strip non-digit characters,
    so "(702) 555-1234" is normalized to "+1(702) 555-1234", not to the
    E.164 form "+17025551234" the claim requires. -/
theorem c4_counterexample :
    normalizePhone "(702) 555-1234" = "+1(702) 555-1234" ∧
    normalizePhone "(702) 555-1234" ≠ "+17025551234" := by
  exact ⟨rfl, by decide⟩

/-- C4 (amended): the normalization returns any input that already starts
    with "+" unchanged (so it is idempotent), and otherwise prefixes the
    raw string with "+1" verbatim, with no stripping of non-digits. -/
theorem c4_amended (s : String) :
    (pyStartsWith "+" s = true → normalizePhone s = s) ∧
    (pyStartsWith "+" s = false → normalizePhone s = "+1" ++ s) ∧
    normalizePhone (normalizePhone s) = normalizePhone s := by
  refine ⟨fun h => ?_, fun h => ?_, ?_⟩
  · simp [normalizePhone, h]
  · simp [normalizePhone, h]
  · by_cases h : pyStartsWith "+" s = true
    · simp [normalizePhone, h]
    · have h2 : pyStartsWith "+" ("+1" ++ s) = true := rfl
      simp only [Bool.not_eq_true] at h
      simp [normalizePhone, h, h2]

/-- C4 witness: the amended statement evaluated on the two inputs named
    by the claim. -/
theorem c4_witness :
    normalizePhone "+17025551234" = "+17025551234" ∧
    normalizePhone "702-555-1234" = "+1702-555-1234" :=
  ⟨(c4_amended "+17025551234").1 rfl,
   ((c4_amended "702-555-1234").2.1 rfl).trans (by decide)⟩

/-! ## C6: address parsing -/

/-- C6 counterexample: on a one-segment address the city component stays
    empty; there is no "Las Vegas" default anywhere in parse_address. -/
theorem c6_counterexample :
    (parse_address "123 Main St").city = "" ∧
    (parse_address "123 Main St").city ≠ "Las Vegas" := by
  exact ⟨rfl, by decide⟩

/-- C6 (amended): parse_address splits on commas; with three or more
    stripped segments the first is the street, the second the city, and
    the whitespace tokens of the third give state and zip; with exactly
    two segments it fills street and city only; with at most one segment
    the whole string is the street.  Absent components stay empty - in
    particular the city default is the empty string, not "Las Vegas". -/
theorem c6_amended (s : String) :
    (3 ≤ ((pySplitChar ',' s).map pyStrip).length →
      parse_address s =
        { address1 := ((pySplitChar ',' s).map pyStrip).headD "",
          city := ((pySplitChar ',' s).map pyStrip).getD 1 "",
          state := (pySplitWs (pyStrip
            (((pySplitChar ',' s).map pyStrip).getD 2 ""))).headD "",
          zipCode := (pySplitWs (pyStrip
            (((pySplitChar ',' s).map pyStrip).getD 2 ""))).getD 1 "" }) ∧
    (((pySplitChar ',' s).map pyStrip).length = 2 →
      parse_address s =
        { address1 := ((pySplitChar ',' s).map pyStrip).headD "",
          city := ((pySplitChar ',' s).map pyStrip).getD 1 "",
          state := "", zipCode := "" }) ∧
    (((pySplitChar ',' s).map pyStrip).length ≤ 1 →
      parse_address s = { address1 := s, city := "", state := "", zipCode := "" }) := by
  refine ⟨fun h3 => ?_, fun h2 => ?_, fun h1 => ?_⟩
  · by_cases hs : s = ""
    · subst hs; exact absurd h3 (by decide)
    · simp only [parse_address]
      rw [if_neg hs, if_pos h3]
  · by_cases hs : s = ""
    · subst hs; exact absurd h2 (by decide)
    · have h3 : ¬ 3 ≤ ((pySplitChar ',' s).map pyStrip).length := by omega
      simp only [parse_address]
      rw [if_neg hs, if_neg h3, if_pos h2]
  · by_cases hs : s = ""
    · subst hs; rfl
    · have h3 : ¬ 3 ≤ ((pySplitChar ',' s).map pyStrip).length := by omega
      have h2 : ¬ ((pySplitChar ',' s).map pyStrip).length = 2 := by omega
      simp only [parse_address]
      rw [if_neg hs, if_neg h3, if_neg h2]

/-- C6 witness: the three-segment branch evaluated on a concrete
    address. -/
theorem c6_witness :
    parse_address "123 Main St, Las Vegas, NV 89101" =
      { address1 := "123 Main St", city := "Las Vegas",
        state := "NV", zipCode := "89101" } :=
  ((c6_amended "123 Main St, Las Vegas, NV 89101").1 (by decide)).trans (by rfl)

/-! ## C5: urgency classification -/

/-- The fixed emergency keyword set named by the specification (claim
    C5); stated from the spec wording, for comparison with the code. -/
def specEmergencyKeywords : List String :=
  ["flooding", "flood", "fire", "sewage", "burst pipe", "water everywhere",
   "smoke", "urgent", "right now", "immediately"]

/-- The case-insensitive transcript keyword scan described by the
    specification (claim C5); stated from the spec wording, for
    comparison with the code. -/
def specTranscriptEmergency (transcript : String) : Bool :=
  specEmergencyKeywords.any (fun k => pyContains k (pyLower transcript))

/-- An end-of-call report whose transcript contains emergency keywords
    but whose structured output has no urgency field. -/
def p5 : EoCPayload :=
  { messageType := "end-of-call-report",
    structuredOutputs := [(STRUCTURED_OUTPUT_ID, ⟨[("first_name", "Ann")]⟩)],
    customerNumber := "",
    callId := "call-5",
    transcript := "Water is flooding the kitchen right now" }

/-- C5 counterexample: with no explicit urgency field and a transcript
    full of emergency keywords, the webhook still produces urgency
    "standard" - the source never scans the transcript. -/
theorem c5_counterexample :
    specTranscriptEmergency p5.transcript = true ∧
    (respData (webhook envW [] (some p5)).fst.body).urgency = "standard" := by
  exact ⟨by decide, rfl⟩

/-- C5 (amended): the lead urgency is the explicit urgency field of the
    structured output when present and "standard" otherwise; the raw
    transcript is never consulted (the whole handler result is invariant
    under changing the transcript). -/
theorem c5_amended {DT : Type} (env : Env DT) (storage : Storage)
    (p : EoCPayload) (t : String)
    (hmt : p.messageType = "end-of-call-report")
    (hld : leadDataOf p ≠ []) :
    (respData (webhook env storage (some p)).fst.body).urgency =
      dictGet (leadDataOf p) "urgency" "standard" ∧
    webhook env storage (some { p with transcript := t }) =
      webhook env storage (some p) := by
  constructor
  · simp only [webhook]
    rw [if_neg (by simp [hmt]), if_neg hld]
    rfl
  · rfl

/-- C5 witness: the amended statement evaluated on a payload with an
    explicit urgency field and on one without. -/
theorem c5_witness :
    ((respData (webhook envW [] (some p1)).fst.body).urgency = "emergency" ∧
      webhook envW [] (some { p1 with transcript := "hello" }) =
        webhook envW [] (some p1)) ∧
    (respData (webhook envW [] (some p5)).fst.body).urgency = "standard" :=
  ⟨⟨((c5_amended envW [] p1 "hello" rfl (by decide)).1).trans (by decide),
    (c5_amended envW [] p1 "hello" rfl (by decide)).2⟩,
   ((c5_amended envW [] p5 "x" rfl (by decide)).1).trans (by decide)⟩

/-! ## C2: extraction error handling -/

/-- C2 counterexample: an end-of-call report whose payload lacks the
    structured output entry is answered with HTTP 400 (and no sink
    dispatch), not with a 200 and default lead fields. -/
theorem c2_counterexample :
    (webhook envW [] (some p2)).fst.status = 400 ∧
    (webhook envW [] (some p2)).snd.fst = [] :=
  ⟨rfl, rfl⟩

/-- C2 (amended): on an end-of-call report with a non-empty structured
    output result, field extraction never aborts - missing fields
    degrade to empty or default values and the handler answers 200; when
    the structured output result is missing or empty, the handler
    answers 400 with no sink side effects. -/
theorem c2_amended {DT : Type} (env : Env DT) (storage : Storage) (p : EoCPayload)
    (hmt : p.messageType = "end-of-call-report") :
    (leadDataOf p ≠ [] → (webhook env storage (some p)).fst.status = 200) ∧
    (leadDataOf p = [] →
      webhook env storage (some p) = (⟨400, .noOutput⟩, [], storage)) := by
  constructor
  · intro hld
    simp only [webhook]
    rw [if_neg (by simp [hmt]), if_neg hld]
  · intro hld
    simp only [webhook]
    rw [if_neg (by simp [hmt]), if_pos hld]

/-- C2 witness: the amended statement evaluated on a populated payload
    and on the empty-output payload. -/
theorem c2_witness :
    (webhook envW [] (some p1)).fst.status = 200 ∧
    webhook envW [] (some p2) = (⟨400, .noOutput⟩, [], []) :=
  ⟨(c2_amended envW [] p1 rfl).1 (by decide),
   (c2_amended envW [] p2 rfl).2 rfl⟩

/-! ## C3: tool endpoint envelopes -/

/-- C3 counterexample: a request whose message has neither a toolCallList
    nor a functionCall is answered by check_availability with HTTP 400
    and an error object instead of the results envelope (book_appointment
    behaves the same way). -/
theorem c3_counterexample :
    check_availability envW
        (some { toolCallList := [], functionCall := none, callId := "" }) =
      ⟨400, .invalidFormat⟩ ∧
    (book_appointment envW []
        (some { toolCallList := [], functionCall := none, callId := "" })).fst =
      ⟨400, .invalidFormat⟩ :=
  ⟨rfl, rfl⟩

/-- C3 (amended): whenever the request message carries a toolCallList
    entry or a functionCall, all four tool endpoints answer HTTP 200
    with the results envelope (and cancel and reschedule do so
    unconditionally); only check-availability and book-appointment
    requests with neither format receive a 400 error object. -/
theorem c3_amended {DT : Type} (env : Env DT) (storage : Storage) (req : ToolReq)
    (h : req.toolCallList ≠ [] ∨ req.functionCall ≠ none) :
    (∃ i r, check_availability env (some req) = ⟨200, .results i r⟩) ∧
    (∃ i r, (book_appointment env storage (some req)).fst = ⟨200, .results i r⟩) ∧
    (∃ i r, cancel_appointment (some req) = ⟨200, .results i r⟩) ∧
    (∃ i r, reschedule_appointment (some req) = ⟨200, .results i r⟩) := by
  have hcancel : ∃ i r, cancel_appointment (some req) = ⟨200, .results i r⟩ :=
    ⟨_, _, rfl⟩
  have hres : ∃ i r, reschedule_appointment (some req) = ⟨200, .results i r⟩ :=
    ⟨_, _, rfl⟩
  rcases htl : req.toolCallList with _ | ⟨tool_call, rest⟩
  · rcases hfc : req.functionCall with _ | parameters
    · rcases h with h | h
      · exact absurd htl h
      · exact absurd hfc h
    · have hca : check_availability env (some req) =
          availabilityResult env "function-call" parameters := by
        simp only [check_availability, htl, hfc]
      have hba : book_appointment env storage (some req) =
          bookAppointmentCore env storage req.callId "function-call" parameters := by
        simp only [book_appointment, htl, hfc]
      rw [hca, hba]
      exact ⟨⟨_, _, rfl⟩, ⟨_, _, rfl⟩, hcancel, hres⟩
  · have hca : check_availability env (some req) =
        availabilityResult env (tool_call.id.getD "unknown") tool_call.arguments := by
      simp only [check_availability, htl]
    have hba : book_appointment env storage (some req) =
        bookAppointmentCore env storage req.callId (tool_call.id.getD "unknown")
          tool_call.arguments := by
      simp only [book_appointment, htl]
    rw [hca, hba]
    exact ⟨⟨_, _, rfl⟩, ⟨_, _, rfl⟩, hcancel, hres⟩

/-- A concrete mid-call booking tool request in the toolCallList
    format. -/
def tcW : ToolCall :=
  { id := some "tc-1",
    arguments :=
      [("appointment_datetime", "2025-03-01T14:00:00Z"),
       ("customer_name", "John Q Public"), ("phone", "7025551234"),
       ("address", "123 Main St, Las Vegas, NV 89101"),
       ("damage_type", "flood")] }

/-- The request wrapping tcW. -/
def reqTool : ToolReq :=
  { toolCallList := [tcW], functionCall := none, callId := "call-9" }

/-- C3 witness: the amended statement evaluated on the concrete booking
    request. -/
theorem c3_witness :
    (∃ i r, check_availability envW (some reqTool) = ⟨200, .results i r⟩) ∧
    (∃ i r, (book_appointment envW [] (some reqTool)).fst = ⟨200, .results i r⟩) ∧
    (∃ i r, cancel_appointment (some reqTool) = ⟨200, .results i r⟩) ∧
    (∃ i r, reschedule_appointment (some reqTool) = ⟨200, .results i r⟩) :=
  c3_amended envW [] reqTool (Or.inl (List.cons_ne_nil _ _))

/-! ## C9: technician SMS success semantics -/

/-- The number of successful individual technician sends among a list of
    recorded sink calls (under the send oracle of the environment). -/
def countSuccessfulSends {DT : Type} (env : Env DT) (calls : List SinkCall) : Nat :=
  (calls.filter (fun c =>
    match c with
    | SinkCall.technicianSms recipient body => env.twilioSendOk recipient body
    | _ => false)).length

/-- The success counter of the send loop equals the number of successful
    sends among the attempts it records. -/
theorem smsLoop_count {DT : Type} (env : Env DT) (message_body : String)
    (phones : List String) :
    (smsLoop env message_body phones).fst =
      countSuccessfulSends env (smsLoop env message_body phones).snd := by
  induction phones with
  | nil => rfl
  | cons p rest ih =>
    simp only [smsLoop]
    by_cases h : pyStrip p = ""
    · simpa [h] using ih
    · simp only [if_neg h]
      by_cases hs : env.twilioSendOk (pyStrip p) message_body
      · simp [countSuccessfulSends, List.filter_cons, hs] at ih ⊢
        omega
      · simp [countSuccessfulSends, List.filter_cons, hs] at ih ⊢
        omega

/-- C9: send_sms_notification reports success exactly when at least one
    of the individual technician sends it attempted succeeded; in
    particular partial failure across recipients still counts as sink
    success.  (The technician list read from the environment is never
    empty, since str.split always returns at least one piece.) -/
theorem c9_theorem {DT : Type} (env : Env DT) (lead_data : SheetData)
    (message_type : String) (hph : env.technicianPhones ≠ []) :
    ((send_sms_notification env lead_data message_type).fst = true ↔
      0 < countSuccessfulSends env
        (send_sms_notification env lead_data message_type).snd) := by
  by_cases hc : ¬ env.twilioConfigured ∨ env.twilioPhone = "" ∨
      env.technicianPhones.headD "" = ""
  · simp only [send_sms_notification]
    rw [if_pos hc]
    simp [countSuccessfulSends]
  · simp only [send_sms_notification, if_neg hc]
    rw [smsLoop_count env (smsBody env.nowDisplay lead_data message_type)
      env.technicianPhones]
    exact decide_eq_true_iff

/-- A concrete lead record. -/
def sheetW : SheetData :=
  { first_name := "Jane", last_name := "Doe", phone_number := "7025551234",
    address := "123 Main St, Las Vegas, NV 89101", referral_source := "Google",
    issue_summary := "flood - emergency", urgency := "emergency",
    appointment_datetime := "" }

/-- An environment in which the second of three technician sends fails. -/
def envPartial : Env Unit :=
  { envW with
    technicianPhones := ["+17025550001", "+17025550002", "+17025550003"],
    twilioSendOk := fun recipient _ => recipient != "+17025550002" }

/-- C9 witness: the equivalence evaluated in an environment where one of
    three technician sends fails - the sink still reports success. -/
theorem c9_witness :
    ((send_sms_notification envPartial sheetW "lead").fst = true ↔
      0 < countSuccessfulSends envPartial
        (send_sms_notification envPartial sheetW "lead").snd) ∧
    (send_sms_notification envPartial sheetW "lead").fst = true :=
  ⟨c9_theorem envPartial sheetW "lead" (by decide), by decide⟩

/-! ## C7: combined name fallback -/

/-- dropWhile is idempotent. -/
theorem dropWhile_dropWhile {α : Type} (p : α → Bool) (l : List α) :
    (l.dropWhile p).dropWhile p = l.dropWhile p := by
  induction l with
  | nil => rfl
  | cons x xs ih =>
    by_cases h : p x
    · simp [List.dropWhile_cons, h, ih]
    · simp [List.dropWhile_cons, h]

/-- A stripped character list has no leading whitespace. -/
theorem pyStripChars_no_leading (l : List Char) :
    (pyStripChars l).dropWhile Char.isWhitespace = pyStripChars l := by
  have hm : (l.dropWhile Char.isWhitespace).dropWhile Char.isWhitespace =
      l.dropWhile Char.isWhitespace := dropWhile_dropWhile _ _
  have hpre : pyStripChars l <+: l.dropWhile Char.isWhitespace :=
    List.rdropWhile_prefix Char.isWhitespace (l.dropWhile Char.isWhitespace)
  rcases hr : pyStripChars l with _ | ⟨y, ys⟩
  · rfl
  · rw [hr] at hpre
    obtain ⟨t, ht⟩ := hpre
    have hy : ¬ Char.isWhitespace y = true := by
      have hhead := List.dropWhile_eq_self_iff.mp hm
      rw [← ht] at hhead
      have h0 : 0 < ((y :: ys) ++ t).length := by simp
      simpa using hhead h0
    simp [List.dropWhile_cons, hy]

/-- The name split described by claim C7, stated from the claim wording:
    the first whitespace-delimited token of the combined name, and the
    remainder after the first whitespace run (surrounding whitespace
    disregarded). -/
def specNameSplit (full_name : String) : String × String :=
  (⟨(pyStrip full_name).data.takeWhile (fun c => !c.isWhitespace)⟩,
   ⟨((pyStrip full_name).data.dropWhile (fun c => !c.isWhitespace)).dropWhile
      Char.isWhitespace⟩)

/-- The head and second element of the split(None, 1) of a stripped
    string are exactly the first token and the remainder. -/
theorem pySplitNone1_pyStrip (full_name : String) :
    ((pySplitNone1 (pyStrip full_name)).headD "",
     (pySplitNone1 (pyStrip full_name)).getD 1 "") = specNameSplit full_name := by
  have hcs : (pyStrip full_name).data.dropWhile Char.isWhitespace =
      (pyStrip full_name).data := pyStripChars_no_leading full_name.data
  simp only [pySplitNone1, specNameSplit, hcs]
  rcases hm : (pyStrip full_name).data with _ | ⟨y, ys⟩
  · simp
  · simp only [List.isEmpty_cons, Bool.false_eq_true, if_false]
    by_cases hrest :
        (((y :: ys).dropWhile (fun c => !c.isWhitespace)).dropWhile
          Char.isWhitespace).isEmpty
    · rw [if_pos hrest]
      rw [List.isEmpty_iff] at hrest
      simp [hrest]
    · rw [if_neg hrest]
      rfl

/-- C7: when both discrete name fields are empty and a combined name (or
    customer_name) field is non-empty, the lead gets the first
    whitespace-delimited token of the combined name as first name and
    the remainder as last name (empty when there is only one token). -/
theorem c7_theorem {DT : Type} (env : Env DT) (storage : Storage) (p : EoCPayload)
    (hmt : p.messageType = "end-of-call-report")
    (hld : leadDataOf p ≠ [])
    (h1 : dictGet (leadDataOf p) "first_name" "" = "")
    (h2 : dictGet (leadDataOf p) "last_name" "" = "")
    (h3 : pyOr (dictGet (leadDataOf p) "name" "")
            (dictGet (leadDataOf p) "customer_name" "") ≠ "") :
    (respData (webhook env storage (some p)).fst.body).first_name =
      (specNameSplit (pyOr (dictGet (leadDataOf p) "name" "")
        (dictGet (leadDataOf p) "customer_name" ""))).fst ∧
    (respData (webhook env storage (some p)).fst.body).last_name =
      (specNameSplit (pyOr (dictGet (leadDataOf p) "name" "")
        (dictGet (leadDataOf p) "customer_name" ""))).snd := by
  have hfst : (respData (webhook env storage (some p)).fst.body).first_name =
      (namesOf (leadDataOf p)).fst := by
    simp only [webhook]
    rw [if_neg (by simp [hmt]), if_neg hld]
    rfl
  have hsnd : (respData (webhook env storage (some p)).fst.body).last_name =
      (namesOf (leadDataOf p)).snd := by
    simp only [webhook]
    rw [if_neg (by simp [hmt]), if_neg hld]
    rfl
  have hnames : namesOf (leadDataOf p) =
      specNameSplit (pyOr (dictGet (leadDataOf p) "name" "")
        (dictGet (leadDataOf p) "customer_name" "")) := by
    simp only [namesOf]
    rw [if_pos ⟨h1, h2⟩, if_pos h3]
    exact pySplitNone1_pyStrip _
  exact ⟨hfst.trans (congrArg Prod.fst hnames),
         hsnd.trans (congrArg Prod.snd hnames)⟩

/-- An end-of-call report carrying only a combined name field. -/
def p7 : EoCPayload :=
  { messageType := "end-of-call-report",
    structuredOutputs := [(STRUCTURED_OUTPUT_ID, ⟨[("name", "John Q Public")]⟩)],
    customerNumber := "",
    callId := "call-7",
    transcript := "" }

/-- C7 witness: the combined name "John Q Public" with empty discrete
    fields yields first_name "John" and last_name "Q Public". -/
theorem c7_witness :
    (respData (webhook envW [] (some p7)).fst.body).first_name = "John" ∧
    (respData (webhook envW [] (some p7)).fst.body).last_name = "Q Public" :=
  ⟨((c7_theorem envW [] p7 rfl (by decide) (by decide) (by decide) (by decide)).1).trans
      (by decide),
   ((c7_theorem envW [] p7 rfl (by decide) (by decide) (by decide) (by decide)).2).trans
      (by decide)⟩

/-! ## C10: unparsable appointment datetimes -/

/-- C10: a datetime string the datetime library cannot parse never aborts
    a handler.  In the webhook, the display-formatted appointment value
    falls back to the raw string and processing continues to sink
    dispatch and a 200 response; in book_appointment, the display time
    falls back to the raw string, the handler still stores the
    appointment record (raw and display both the raw string) and answers
    200. -/
theorem c10_theorem {DT : Type} (env : Env DT) :
    (∀ (storage : Storage) (p : EoCPayload),
      p.messageType = "end-of-call-report" →
      leadDataOf p ≠ [] →
      appointment_datetime_raw_of storage p.callId (leadDataOf p) ≠ "" →
      stored_formatted_of storage p.callId = "" →
      env.fromiso (pyReplace "Z" "+00:00"
        (appointment_datetime_raw_of storage p.callId (leadDataOf p))) = none →
      (webhook env storage (some p)).fst.status = 200 ∧
      (respData (webhook env storage (some p)).fst.body).appointment_datetime =
        appointment_datetime_raw_of storage p.callId (leadDataOf p)) ∧
    (∀ (storage : Storage) (req : ToolReq) (tool_call : ToolCall)
        (rest : List ToolCall),
      req.toolCallList = tool_call :: rest →
      req.callId ≠ "" →
      dictGet tool_call.arguments "appointment_datetime" "" ≠ "" →
      env.fromiso (pyReplace "Z" "+00:00"
        (dictGet tool_call.arguments "appointment_datetime" "")) = none →
      (book_appointment env storage (some req)).fst.status = 200 ∧
      ((book_appointment env storage (some req)).snd.snd).lookup req.callId =
        some ⟨dictGet tool_call.arguments "appointment_datetime" "",
              dictGet tool_call.arguments "appointment_datetime" ""⟩) := by
  constructor
  · intro storage p hmt hld hraw hfmt hfail
    constructor
    · simp only [webhook]
      rw [if_neg (by simp [hmt]), if_neg hld]
    · simp only [webhook]
      rw [if_neg (by simp [hmt]), if_neg hld, if_pos ⟨hraw, hfmt⟩, hfail]
      rfl
  · intro storage req tool_call rest htc hcid hadt hfail
    have hb : book_appointment env storage (some req) =
        bookAppointmentCore env storage req.callId (tool_call.id.getD "unknown")
          tool_call.arguments := by
      simp only [book_appointment, htc]
    rw [hb]
    constructor
    · rfl
    · simp only [bookAppointmentCore]
      rw [if_pos hcid, if_pos hadt, hfail]
      exact dictInsert_lookup _ _ _

/-- A stored appointment whose datetime is not parseable. -/
def st10 : Storage := [("call-10", ⟨"not-a-date", ""⟩)]

/-- An end-of-call report for the call with the unparsable stored
    datetime. -/
def p10 : EoCPayload :=
  { messageType := "end-of-call-report",
    structuredOutputs := [(STRUCTURED_OUTPUT_ID, ⟨[("first_name", "Ann")]⟩)],
    customerNumber := "",
    callId := "call-10",
    transcript := "" }

/-- A booking tool call carrying an unparsable datetime. -/
def tc10 : ToolCall :=
  { id := some "t10",
    arguments :=
      [("appointment_datetime", "maybe-march-first"),
       ("customer_name", "Ann Lee"), ("phone", "7025550001")] }

/-- The request wrapping tc10. -/
def req10 : ToolReq :=
  { toolCallList := [tc10], functionCall := none, callId := "call-10b" }

/-- C10 witness: both parts of the statement evaluated on concrete
    unparsable datetimes (the environment parser always fails). -/
theorem c10_witness :
    ((webhook envW st10 (some p10)).fst.status = 200 ∧
     (respData (webhook envW st10 (some p10)).fst.body).appointment_datetime =
       appointment_datetime_raw_of st10 p10.callId (leadDataOf p10)) ∧
    ((book_appointment envW [] (some req10)).fst.status = 200 ∧
     ((book_appointment envW [] (some req10)).snd.snd).lookup req10.callId =
       some ⟨dictGet tc10.arguments "appointment_datetime" "",
             dictGet tc10.arguments "appointment_datetime" ""⟩) :=
  ⟨(c10_theorem envW).1 st10 p10 rfl (by decide) (by decide) (by decide) rfl,
   (c10_theorem envW).2 [] req10 tc10 [] rfl (by decide) (by decide) rfl⟩

/-! ## C1: idempotent processing -/

/-- C1 counterexample: running the webhook twice on the same end-of-call
    payload dispatches sink calls on both runs - the source keeps no
    processed-call set, so the second invocation performs new sink side
    effects instead of being a no-op. -/
theorem c1_counterexample :
    0 < (webhook envW [] (some p1)).snd.fst.length ∧
    0 < (webhook envW (webhook envW [] (some p1)).snd.snd (some p1)).snd.fst.length := by
  exact ⟨by decide, by decide⟩

/-- C1 (amended): there is no idempotency guard.  With the Albiware sink
    configured, a repeated end-of-call event for the same call id is
    answered with HTTP 200 again, but it re-dispatches to the sinks (the
    dispatch list of the second run is non-empty); only the appointment
    cache entry is consumed at most once. -/
theorem c1_amended {DT : Type} (env : Env DT) (storage : Storage) (p : EoCPayload)
    (hmt : p.messageType = "end-of-call-report")
    (hld : leadDataOf p ≠ [])
    (hkey : env.albiwareApiKey ≠ "") :
    (webhook env (webhook env storage (some p)).snd.snd (some p)).fst.status = 200 ∧
    (webhook env (webhook env storage (some p)).snd.snd (some p)).snd.fst ≠ [] := by
  have hstatus : ∀ st : Storage, (webhook env st (some p)).fst.status = 200 := by
    intro st
    simp only [webhook]
    rw [if_neg (by simp [hmt]), if_neg hld]
  have hcalls : ∀ st : Storage, (webhook env st (some p)).snd.fst ≠ [] := by
    intro st hcontra
    simp only [webhook] at hcontra
    rw [if_neg (by simp [hmt]), if_neg hld] at hcontra
    simp only [List.append_eq_nil] at hcontra
    obtain ⟨⟨⟨_, hB⟩, _⟩, _⟩ := hcontra
    simp [create_albiware_contact, hkey] at hB
  exact ⟨hstatus _, hcalls _⟩

/-- C1 witness: the amended statement evaluated on the concrete payload
    in the fully configured environment. -/
theorem c1_witness :
    (webhook envW (webhook envW [] (some p1)).snd.snd (some p1)).fst.status = 200 ∧
    (webhook envW (webhook envW [] (some p1)).snd.snd (some p1)).snd.fst ≠ [] :=
  c1_amended envW [] p1 rfl (by decide) (by decide)

/-! ## C8: appointment cache bridging -/

/-- C8: when a booking tool call stores an appointment record (which it
    does whenever the call id is non-empty, and with a non-empty
    datetime whenever one was supplied), the later end-of-call event for
    the same call id computes its raw appointment datetime from the
    stored record in preference to any datetime in the structured
    output, and after the webhook run the cache holds no entry for that
    call id (at-most-once consumption). -/
theorem c8_theorem {DT : Type} (env : Env DT) (storage : Storage)
    (req : ToolReq) (tool_call : ToolCall) (rest : List ToolCall) (p : EoCPayload)
    (htc : req.toolCallList = tool_call :: rest)
    (hadt : dictGet tool_call.arguments "appointment_datetime" "" ≠ "")
    (hcid : req.callId ≠ "")
    (hpid : p.callId = req.callId)
    (hmt : p.messageType = "end-of-call-report")
    (hld : leadDataOf p ≠ []) :
    appointment_datetime_raw_of (book_appointment env storage (some req)).snd.snd
        p.callId (leadDataOf p) =
      dictGet tool_call.arguments "appointment_datetime" "" ∧
    ((webhook env (book_appointment env storage (some req)).snd.snd
        (some p)).snd.snd).lookup p.callId = none := by
  have hst : ∃ disp, (book_appointment env storage (some req)).snd.snd =
      dictInsert req.callId
        ⟨dictGet tool_call.arguments "appointment_datetime" "", disp⟩ storage := by
    simp only [book_appointment, htc, bookAppointmentCore]
    rw [if_pos hcid]
    exact ⟨_, rfl⟩
  obtain ⟨disp, hst⟩ := hst
  have hlook : ((book_appointment env storage (some req)).snd.snd).lookup p.callId =
      some ⟨dictGet tool_call.arguments "appointment_datetime" "", disp⟩ := by
    rw [hst, hpid]
    exact dictInsert_lookup _ _ _
  constructor
  · unfold appointment_datetime_raw_of stored_datetime_of
    rw [hlook]
    simp [pyOr, hadt]
  · simp only [webhook]
    rw [if_neg (by simp [hmt]), if_neg hld]
    have hne : p.callId ≠ "" := by rw [hpid]; exact hcid
    rw [if_pos (show p.callId ≠ "" ∧
        (((book_appointment env storage (some req)).snd.snd).lookup p.callId).isSome = true from
      ⟨hne, by rw [hlook]; rfl⟩)]
    exact dictDelete_lookup _ _

/-- An end-of-call report for the booked call, carrying its own
    (different) structured appointment datetime. -/
def p8 : EoCPayload :=
  { messageType := "end-of-call-report",
    structuredOutputs :=
      [(STRUCTURED_OUTPUT_ID,
        ⟨[("first_name", "Jo"),
          ("appointment_datetime", "2025-04-01T10:00:00Z")]⟩)],
    customerNumber := "",
    callId := "call-9",
    transcript := "" }

/-- C8 witness: the booking stored 2025-03-01T14:00:00Z for call-9; the
    end-of-call event carries 2025-04-01T10:00:00Z in its structured
    output, yet the stored datetime wins, and afterwards the cache entry
    is gone. -/
theorem c8_witness :
    appointment_datetime_raw_of (book_appointment envW [] (some reqTool)).snd.snd
        p8.callId (leadDataOf p8) = "2025-03-01T14:00:00Z" ∧
    ((webhook envW (book_appointment envW [] (some reqTool)).snd.snd
        (some p8)).snd.snd).lookup p8.callId = none := by
  have h := c8_theorem envW [] reqTool tcW [] p8 rfl (by decide) (by decide) rfl rfl
    (by decide)
  exact ⟨h.1.trans (by decide), h.2⟩
